import Mathlib

/-!
Shallow embedding of `src/bot.py`: a bidirectional Telegram relay between
private correspondents and per-user forum topics in one staff group, with a
media-group (album) aggregation subsystem.

Modelling conventions:
* Python dicts are insertion-ordered association lists; `dictGet`, `dictInsert`,
  `dictErase` and `groupAppend` implement `d.get(k)`, `d[k] = v`,
  `d.pop(k, default)` and `defaultdict(list)`'s `d[k].append(x)`.
* Python truthiness is explicit: optional ints are falsy on `None` and `0`,
  strings are falsy on `None` and `""` (both falsy values of a string field
  are collapsed to `""` where the code only ever tests truthiness).
* Every transport call (`bot.send_*`, `bot.create_forum_topic`), every
  snapshot write (`save_maps`) and every log line becomes an element of an
  effect trace; the transport's answer to `create_forum_topic` is an
  `Option Int` argument (`none` models a raised `TelegramError`).
* The JSON layer of `save_maps`/`load_maps` stringifies integer dict keys
  (`str(k)` on dump, `int(k)` on load); `pyStr`/`pyInt` model those two
  Python primitives on the canonical decimal renderings they exchange.
  JSON numbers, strings and `null` round-trip unchanged, so record values
  are carried through as-is, and `int(v)` on an already-integer value is the
  identity.
* The per-key flush task registered by the handlers runs
  `asyncio.sleep(1.0)` and then drains its buffer; in the timed model
  (`TimedAgg`) a task registered while handling an arrival at time `now`
  fires at `now + 1`.  The event loop is single threaded, so the
  check-then-register sequence in an enqueue is atomic: two enqueues are
  modelled as sequential composition.
Process bootstrap (`main`), the polling loop and the `/start` command are
wiring around the engine and are not part of the embedding.
-/

/-- Python truthiness of an optional integer: `None` and `0` are falsy. -/
def pyTruthyIntOpt : Option Int → Bool
  | none => false
  | some n => n != 0

/-- Python truthiness of an optional string: `None` and `""` are falsy. -/
def pyTruthyStrOpt : Option String → Bool
  | none => false
  | some s => s != ""

/-- Lookup in an insertion-ordered association list (Python `d.get(k)`). -/
def dictGet {κ α : Type} [DecidableEq κ] (k : κ) : List (κ × α) → Option α
  | [] => none
  | (k', v) :: rest => if k = k' then some v else dictGet k rest

/-- Python dict assignment `d[k] = v`: replace in place if the key is
present, otherwise append at the end (insertion order). -/
def dictInsert {κ α : Type} [DecidableEq κ] (k : κ) (v : α) : List (κ × α) → List (κ × α)
  | [] => [(k, v)]
  | (k', v') :: rest => if k = k' then (k, v) :: rest else (k', v') :: dictInsert k v rest

/-- Python `d.pop(k, default)` restricted to its effect on the dict:
drop the entry for `k`, if any. -/
def dictErase {κ α : Type} [DecidableEq κ] (k : κ) : List (κ × α) → List (κ × α)
  | [] => []
  | (k', v) :: rest => if k = k' then rest else (k', v) :: dictErase k rest

/-- On a `defaultdict(list)`, `d[k].append(m)`: append to the entry in
place if present, otherwise create the entry `[m]` at the end. -/
def groupAppend {κ : Type} [DecidableEq κ] {α : Type} (k : κ) (m : α) :
    List (κ × List α) → List (κ × List α)
  | [] => [(k, [m])]
  | (k', ms) :: rest =>
      if k = k' then (k', ms ++ [m]) :: rest else (k', ms) :: groupAppend k m rest

/-- Removal of a key from the flush-task table (`media_group_tasks.pop(key, None)`);
only the keys of the table are tracked, task handles being opaque. -/
def keyErase (k : String) : List String → List String
  | [] => []
  | k' :: rest => if k = k' then rest else k' :: keyErase k rest

/-- One decimal digit rendered as a character, as Python's `str` renders the
digits 0–9. -/
def digitChar (d : Nat) : Char := Char.ofNat (48 + d % 10)

/-- Numeric value of a decimal digit character, as Python's `int` reads it. -/
def digitVal (c : Char) : Nat := c.toNat - 48

/-- Python `str(n)` on a natural number: decimal digits, most significant
first. -/
def pyStrNat (n : Nat) : String :=
  if n = 0 then "0" else String.mk ((Nat.digits 10 n).reverse.map digitChar)

/-- Python `str(i)` on an arbitrary-precision integer. -/
def pyStr (i : Int) : String :=
  if i < 0 then "-" ++ pyStrNat i.natAbs else pyStrNat i.toNat

/-- Value of a most-significant-first list of decimal digit characters. -/
def pyNatVal (l : List Char) : Nat := l.foldl (fun a c => 10 * a + digitVal c) 0

/-- Python `int(s)` on a canonical decimal rendering: an optional leading
minus sign followed by digits.  (`int("")` raises in Python; the `0` of the
empty case here is never exercised by the round trip.) -/
def pyInt (s : String) : Int :=
  match s.data with
  | [] => 0
  | c :: rest => if c = '-' then -(pyNatVal rest : Int) else (pyNatVal (c :: rest) : Int)

/-- The fields of a `telegram.Message` that `src/bot.py` reads.  `text` and
`caption` use `""` for an absent value (the code only tests truthiness and
both `None` and `""` are falsy); `photo` is the list of size variants
(`photo[-1]` is the best quality) with `[]` for absent; `reply_to_from_user`
nests `reply_to_message` (outer `Option`) and its `from_user`'s id (inner
`Option`). -/
structure Msg where
  chat_id : Int
  from_user_id : Int
  text : String
  caption : String
  photo : List String
  video : Option String
  document : Option String
  voice : Option String
  media_group_id : Option String
  message_thread_id : Option Int
  reply_to_from_user : Option (Option Int)
deriving DecidableEq

/-- The per-user record stored in `user_topics`: the dict
`\x7b"topic_id": Optional[int], "username": str\x7d`. -/
structure TopicRecord where
  topic_id : Option Int
  username : String
deriving DecidableEq

/-- The in-memory mapping store: the two module-level dicts `user_topics`
and `topic_to_user`. -/
structure Store where
  user_topics : List (Int × TopicRecord)
  topic_to_user : List (Int × Int)
deriving DecidableEq

/-- The persisted JSON snapshot: the same two mappings with the integer keys
rendered as strings (as `json.dump` renders int dict keys). -/
structure Snapshot where
  user_topics : List (String × TopicRecord)
  topic_to_user : List (String × Int)
deriving DecidableEq

/-- `save_maps`: serialize both dicts wholesale; integer keys become their
decimal string renderings, values round-trip through JSON unchanged. -/
def save_maps (s : Store) : Snapshot :=
  { user_topics := s.user_topics.map (fun p => (pyStr p.1, p.2)),
    topic_to_user := s.topic_to_user.map (fun p => (pyStr p.1, p.2)) }

/-- `load_maps` (successful-parse path): rebuild both dicts, converting every
key back with `int(k)`; the values of `topic_to_user` go through `int(v)`,
the identity on the integers JSON hands back.  (A missing or unparsable file
yields the empty store instead; that branch is outside the round trip.) -/
def load_maps (d : Snapshot) : Store :=
  { user_topics := d.user_topics.map (fun p => (pyInt p.1, p.2)),
    topic_to_user := d.topic_to_user.map (fun p => (pyInt p.1, p.2)) }

/-- A `telegram.InputMedia*` batch entry as built by the flush tasks. -/
inductive InputMedia where
  | photo (file_id : String) (caption : String)
  | video (file_id : String) (caption : String)
  | document (file_id : String) (caption : String)
deriving DecidableEq

/-- Caption of a batch entry. -/
def capOf : InputMedia → String
  | .photo _ c => c
  | .video _ c => c
  | .document _ c => c

/-- One observable action of the engine: a transport call, a snapshot write,
a flush-task registration, or a log line.  Log lines keep the literal format
string of the source (the interpolated runtime values are logging detail). -/
inductive Effect where
  | sendMessage (chat_id : Int) (thread_id : Option Int) (text : String)
  | sendPhoto (chat_id : Int) (thread_id : Option Int) (file_id : String) (caption : String)
  | sendVideo (chat_id : Int) (thread_id : Option Int) (file_id : String) (caption : String)
  | sendDocument (chat_id : Int) (thread_id : Option Int) (file_id : String) (caption : String)
  | sendVoice (chat_id : Int) (thread_id : Option Int) (file_id : String) (caption : String)
  | sendMediaGroup (chat_id : Int) (thread_id : Option Int) (media : List InputMedia)
  | createForumTopic (chat_id : Int) (topicName : String)
  | save (snap : Snapshot)
  | createTask (key : String)
  | logError (text : String)
  | logWarning (text : String)
deriving DecidableEq

/-- Whether an effect is an outbound transport send. -/
def isSend : Effect → Bool
  | .sendMessage _ _ _ => true
  | .sendPhoto _ _ _ _ => true
  | .sendVideo _ _ _ _ => true
  | .sendDocument _ _ _ _ => true
  | .sendVoice _ _ _ _ => true
  | .sendMediaGroup _ _ _ => true
  | _ => false

/-- The aggregation state: the module-level `media_groups` buffer dict and
the key set of `media_group_tasks`. -/
structure AggState where
  media_groups : List (String × List Msg)
  media_group_tasks : List String
deriving DecidableEq

/-- `_chunk(lst, size)`: the comprehension `[lst[i:i+size] for i in
range(0, len(lst), size)]` — slice `j*size` to `j*size + size` for each of
the `ceil(len/size)` starting points, in order. -/
def _chunk {α : Type} (lst : List α) (size : Nat) : List (List α) :=
  (List.range ((lst.length + size - 1) / size)).map
    (fun j => (lst.drop (j * size)).take size)

/-- `_first_non_empty_caption(msgs)`: the first truthy caption in arrival
order, `""` if none. -/
def _first_non_empty_caption : List Msg → String
  | [] => ""
  | m :: rest => if m.caption ≠ "" then m.caption else _first_non_empty_caption rest

/-- Whether a buffered message yields a batch entry: it carries a photo, a
video or a document (the three `elif` arms of the flush loop). -/
def isMediaKind (m : Msg) : Bool :=
  !m.photo.isEmpty || m.video.isSome || m.document.isSome

/-- The entry-building loop `for i, m in enumerate(msgs)` of the flush
tasks, with the enumeration index threaded explicitly:
`cap = (first_caption if i == 0 else None) or ""` assigns `first_caption`
at index 0 and `""` elsewhere; photo, then video, then document yield an
entry, anything else is skipped. -/
def build_media_with (first_caption : String) : Nat → List Msg → List InputMedia
  | _, [] => []
  | i, m :: rest =>
      let cap := if i = 0 then first_caption else ""
      let tail := build_media_with first_caption (i + 1) rest
      if m.photo ≠ [] then InputMedia.photo (m.photo.getLastD "") cap :: tail
      else
        match m.video with
        | some v => InputMedia.video v cap :: tail
        | none =>
            match m.document with
            | some d => InputMedia.document d cap :: tail
            | none => tail

/-- The full `media_all` list built by a flush task from its buffer. -/
def build_media_all (msgs : List Msg) : List InputMedia :=
  build_media_with (_first_non_empty_caption msgs) 0 msgs

/-- `process_media_group_UG` after its `asyncio.sleep(1.0)`: atomically pop
the buffer and the task entry for `key`; if the buffer was empty or absent,
no-op; otherwise build the batch and send one `send_media_group` per chunk
of at most 10 entries to the group, thread-scoped when a topic id was
captured. -/
def process_media_group_UG (group_chat_id : Int) (ag : AggState) (key : String)
    (topic_id : Option Int) : AggState × List Effect :=
  let msgs := (dictGet key ag.media_groups).getD []
  let ag1 : AggState :=
    { media_groups := dictErase key ag.media_groups,
      media_group_tasks := keyErase key ag.media_group_tasks }
  if msgs.isEmpty then (ag1, [])
  else
    (ag1, (_chunk (build_media_all msgs) 10).map
      (fun part => Effect.sendMediaGroup group_chat_id topic_id part))

/-- `process_media_group_GU` after its `asyncio.sleep(1.0)`: the
group-to-user mirror of the flush; batches go to the user's private chat
(no thread scoping). -/
def process_media_group_GU (ag : AggState) (key : String) (user_id : Int) :
    AggState × List Effect :=
  let msgs := (dictGet key ag.media_groups).getD []
  let ag1 : AggState :=
    { media_groups := dictErase key ag.media_groups,
      media_group_tasks := keyErase key ag.media_group_tasks }
  if msgs.isEmpty then (ag1, [])
  else
    (ag1, (_chunk (build_media_all msgs) 10).map
      (fun part => Effect.sendMediaGroup user_id none part))

/-- `get_or_create_topic`: refresh the label and return the stored
assignment if the user is known; otherwise ask the transport for a new
forum topic (`createResult` is its answer, `none` for a `TelegramError`),
record the outcome — a real topic id or the degraded `None` assignment —
and persist.  Every path rewrites the snapshot before returning. -/
def get_or_create_topic (group_chat_id : Int) (st : Store) (user_id : Int)
    (username : String) (createResult : Option Int) : Store × Option Int × List Effect :=
  match dictGet user_id st.user_topics with
  | some rec =>
      let st' : Store :=
        { st with user_topics := dictInsert user_id { rec with username := username } st.user_topics }
      (st', rec.topic_id, [Effect.save (save_maps st')])
  | none =>
      match createResult with
      | some topic_id =>
          let st' : Store :=
            { user_topics := dictInsert user_id ⟨some topic_id, username⟩ st.user_topics,
              topic_to_user := dictInsert topic_id user_id st.topic_to_user }
          (st', some topic_id,
            [Effect.createForumTopic group_chat_id (if username != "" then username else "访客"),
             Effect.save (save_maps st')])
      | none =>
          let st' : Store :=
            { st with user_topics := dictInsert user_id ⟨none, username⟩ st.user_topics }
          (st', none,
            [Effect.createForumTopic group_chat_id (if username != "" then username else "访客"),
             Effect.logError "创建论坛话题失败，降级为直发到群",
             Effect.save (save_maps st')])

/-- The media-group enqueue shared by both handlers: append the message to
the buffer for `key`, then register a flush task if and only if none is
registered for `key` (no suspension point separates the check from the
registration).  Returns the new state and whether a task was registered. -/
def mg_enqueue (ag : AggState) (key : String) (m : Msg) : AggState × Bool :=
  let mg := groupAppend key m ag.media_groups
  if key ∈ ag.media_group_tasks then
    ({ media_groups := mg, media_group_tasks := ag.media_group_tasks }, false)
  else
    ({ media_groups := mg, media_group_tasks := ag.media_group_tasks ++ [key] }, true)

/-- `handle_private`: resolve or create the user's topic first (label
refresh and persistence happen on every message), then either enqueue a
media-group member under key `"UG:" ++ burst id`, or send the single
normalized payload to the group with a provenance prefix, thread-scoped when
a topic id is present; unrecognized content kinds fall through silently. -/
def handle_private (group_chat_id : Int) (st : Store) (ag : AggState) (msg : Msg)
    (username : String) (createResult : Option Int) : Store × AggState × List Effect :=
  let r := get_or_create_topic group_chat_id st msg.from_user_id username createResult
  let st1 := r.1
  let topic_id := r.2.1
  let effs := r.2.2
  if pyTruthyStrOpt msg.media_group_id then
    let gid := msg.media_group_id.getD ""
    let er := mg_enqueue ag ("UG:" ++ gid) msg
    (st1, er.1, effs ++ if er.2 then [Effect.createTask ("UG:" ++ gid)] else [])
  else if msg.text != "" then
    (st1, ag,
      effs ++ [Effect.sendMessage group_chat_id topic_id
        ("收到 " ++ username ++ " 的信息：\n" ++ msg.text)])
  else
    let cap := msg.caption
    if msg.photo != [] then
      (st1, ag,
        effs ++ [Effect.sendPhoto group_chat_id topic_id (msg.photo.getLastD "")
          (if cap != "" then "收到 " ++ username ++ " 的照片\n" ++ cap
           else "收到 " ++ username ++ " 的照片")])
    else
      match msg.video with
      | some v =>
          (st1, ag,
            effs ++ [Effect.sendVideo group_chat_id topic_id v
              (if cap != "" then "收到 " ++ username ++ " 的视频\n" ++ cap
               else "收到 " ++ username ++ " 的视频")])
      | none =>
          match msg.document with
          | some d =>
              (st1, ag,
                effs ++ [Effect.sendDocument group_chat_id topic_id d
                  (if cap != "" then "收到 " ++ username ++ " 的文件\n" ++ cap
                   else "收到 " ++ username ++ " 的文件")])
          | none =>
              match msg.voice with
              | some v =>
                  (st1, ag,
                    effs ++ [Effect.sendVoice group_chat_id topic_id v
                      (if cap != "" then "收到 " ++ username ++ " 的语音\n" ++ cap
                       else "收到 " ++ username ++ " 的语音")])
              | none => (st1, ag, effs)

/-- The linear repair scan of `handle_group`: the first user whose record
carries `topic_id == topic_id` in dict iteration (insertion) order. -/
def repair_scan (topic_id : Int) : List (Int × TopicRecord) → Option Int
  | [] => none
  | (uid, rec) :: rest =>
      if rec.topic_id = some topic_id then some uid else repair_scan topic_id rest

/-- The inline reverse-lookup-with-repair block of `handle_group`
(`src/bot.py` lines 237–245, the spec's `resolveCorrespondent`): consult
`topic_to_user`; on a falsy answer scan `user_topics`, and on a hit insert
the missing reverse entry and persist.  Returns the updated store, the
value of the `user_id` variable after the block, and the write effects. -/
def resolveCorrespondent (st : Store) (topic_id : Int) : Store × Option Int × List Effect :=
  let u0 := dictGet topic_id st.topic_to_user
  if pyTruthyIntOpt u0 then (st, u0, [])
  else
    match repair_scan topic_id st.user_topics with
    | some uid =>
        let st' : Store := { st with topic_to_user := dictInsert topic_id uid st.topic_to_user }
        (st', some uid, [Effect.save (save_maps st')])
    | none => (st, u0, [])

/-- `handle_group`: drop anything outside the configured group, anything not
inside a topic thread, and anything that is not a direct reply to one of the
bot's own messages; then resolve the correspondent (with repair), drop with
one warning if unresolvable, and forward the content verbatim — a
media-group member is enqueued under `"GU:" ++ burst id`, single payloads
are sent straight to the user's private chat. -/
def handle_group (group_chat_id : Int) (bot_id : Int) (st : Store) (ag : AggState)
    (msg : Msg) : Store × AggState × List Effect :=
  if msg.chat_id != group_chat_id then (st, ag, [])
  else if !(pyTruthyIntOpt msg.message_thread_id &&
            (match msg.reply_to_from_user with
             | some (some i) => i == bot_id
             | _ => false)) then (st, ag, [])
  else
    let topic_id := msg.message_thread_id.getD 0
    let rr := resolveCorrespondent st topic_id
    let st1 := rr.1
    let user_id := rr.2.1
    let effs := rr.2.2
    if !(pyTruthyIntOpt user_id) then
      (st1, ag, effs ++ [Effect.logWarning "未找到 topic_id %s 对应用户"])
    else
      let uid := user_id.getD 0
      if pyTruthyStrOpt msg.media_group_id then
        let gid := msg.media_group_id.getD ""
        let er := mg_enqueue ag ("GU:" ++ gid) msg
        (st1, er.1, effs ++ if er.2 then [Effect.createTask ("GU:" ++ gid)] else [])
      else if msg.text != "" then
        (st1, ag, effs ++ [Effect.sendMessage uid none msg.text])
      else
        let cap := msg.caption
        if msg.photo != [] then
          (st1, ag, effs ++ [Effect.sendPhoto uid none (msg.photo.getLastD "") cap])
        else
          match msg.video with
          | some v => (st1, ag, effs ++ [Effect.sendVideo uid none v cap])
          | none =>
              match msg.document with
              | some d => (st1, ag, effs ++ [Effect.sendDocument uid none d cap])
              | none =>
                  match msg.voice with
                  | some v => (st1, ag, effs ++ [Effect.sendVoice uid none v cap])
                  | none => (st1, ag, effs)

/-- The aggregation state together with the scheduled fire time of every
registered flush task: a task registered while handling an arrival at time
`now` runs `asyncio.sleep(1.0)` and fires at `now + 1`. -/
structure TimedAgg where
  ag : AggState
  fire : List (String × Rat)
deriving DecidableEq

/-- The user-to-group enqueue of `handle_private` in the timed model: the
buffer append and conditional task registration of `mg_enqueue`, recording
`now + 1` as the new task's fire time; an already-registered task is neither
cancelled nor rescheduled. -/
def timed_enqueue_private (s : TimedAgg) (now : Rat) (gid : String) (m : Msg) : TimedAgg :=
  let er := mg_enqueue s.ag ("UG:" ++ gid) m
  { ag := er.1,
    fire := if er.2 then s.fire ++ [("UG:" ++ gid, now + 1)] else s.fire }

/-! ### Decimal rendering and parsing: the key round trip of the snapshot -/

theorem digitVal_digitChar {d : Nat} (h : d < 10) : digitVal (digitChar d) = d := by
  interval_cases d <;> decide

theorem digitChar_ne_dash (d : Nat) : digitChar d ≠ '-' := by
  obtain ⟨k, hk, he⟩ : ∃ k, k < 10 ∧ digitChar d = Char.ofNat (48 + k) :=
    ⟨d % 10, Nat.mod_lt _ (by decide), rfl⟩
  rw [he]
  interval_cases k <;> decide

theorem foldl_digitVal_map (l : List Nat) (hl : ∀ d ∈ l, d < 10) (a : Nat) :
    List.foldl (fun a c => 10 * a + digitVal c) a (l.map digitChar)
      = List.foldl (fun a d => 10 * a + d) a l := by
  induction l generalizing a with
  | nil => rfl
  | cons d L ih =>
      simp only [List.map_cons, List.foldl_cons]
      rw [digitVal_digitChar (hl d (by simp))]
      exact ih (fun x hx => hl x (by simp [hx])) _

theorem foldl_msf_eq_ofDigits (l : List Nat) (a : Nat) :
    List.foldl (fun a d => 10 * a + d) a l.reverse
      = a * 10 ^ l.length + Nat.ofDigits 10 l := by
  induction l generalizing a with
  | nil => simp [Nat.ofDigits_nil]
  | cons d L ih =>
      rw [List.reverse_cons, List.foldl_append]
      simp only [List.foldl_cons, List.foldl_nil]
      rw [ih]
      rw [Nat.ofDigits_cons, List.length_cons]
      ring

theorem pyNatVal_pyStrNat (n : Nat) : pyNatVal (pyStrNat n).data = n := by
  by_cases h : n = 0
  · subst h; decide
  · unfold pyStrNat
    rw [if_neg h]
    show pyNatVal ((Nat.digits 10 n).reverse.map digitChar) = n
    unfold pyNatVal
    rw [foldl_digitVal_map _
      (fun d hd => Nat.digits_lt_base (by norm_num) (List.mem_reverse.mp hd)) 0]
    rw [foldl_msf_eq_ofDigits]
    simp [Nat.ofDigits_digits]

theorem pyInt_data_cons (c : Char) (rest : List Char) (s : String) (h : s.data = c :: rest) :
    pyInt s = if c = '-' then -(pyNatVal rest : Int) else (pyNatVal (c :: rest) : Int) := by
  unfold pyInt
  rw [h]

theorem pyInt_pyStrNat (n : Nat) : pyInt (pyStrNat n) = (n : Int) := by
  by_cases h : n = 0
  · subst h; decide
  · have hd : (pyStrNat n).data = (Nat.digits 10 n).reverse.map digitChar := by
      unfold pyStrNat; rw [if_neg h]
    have hne : Nat.digits 10 n ≠ [] := Nat.digits_ne_nil_iff_ne_zero.mpr h
    obtain ⟨c, cs, hcons⟩ : ∃ c cs, (Nat.digits 10 n).reverse = c :: cs := by
      cases hrev : (Nat.digits 10 n).reverse with
      | nil => exact absurd (List.reverse_eq_nil_iff.mp hrev) hne
      | cons c cs => exact ⟨c, cs, rfl⟩
    rw [hcons, List.map_cons] at hd
    rw [pyInt_data_cons _ _ _ hd, if_neg (digitChar_ne_dash c)]
    have hback : digitChar c :: cs.map digitChar = (pyStrNat n).data := hd.symm
    rw [hback, pyNatVal_pyStrNat]

theorem pyInt_pyStr (i : Int) : pyInt (pyStr i) = i := by
  unfold pyStr
  by_cases h : i < 0
  · rw [if_pos h]
    have hdata : ("-" ++ pyStrNat i.natAbs).data = '-' :: (pyStrNat i.natAbs).data := by
      rw [String.data_append]; rfl
    rw [pyInt_data_cons _ _ _ hdata, if_pos rfl, pyNatVal_pyStrNat]
    omega
  · rw [if_neg h, pyInt_pyStrNat]
    omega

theorem map_key_roundtrip {α : Type} (l : List (Int × α)) :
    (l.map (fun p => (pyStr p.1, p.2))).map (fun p => (pyInt p.1, p.2)) = l := by
  induction l with
  | nil => rfl
  | cons p rest ih => simp [pyInt_pyStr, ih]

/-- C7: for every store state — a pair of a correspondent map and a
reverse-index map with integer identities and thread ids — persisting with
`save_maps` and reloading with `load_maps` yields maps equal to the
originals: the string-keyed serialization round-trips back to the identical
bidirectional mapping. -/
theorem c7_mapping_roundtrip (s : Store) : load_maps (save_maps s) = s := by
  cases s with
  | mk ut ttu =>
      simp only [save_maps, load_maps]
      rw [map_key_roundtrip, map_key_roundtrip]

/-! ### Chunking -/

theorem chunk10_nil {α : Type} : _chunk ([] : List α) 10 = [] := by
  simp [_chunk]

theorem chunk10_cons {α : Type} (l : List α) (h : l ≠ []) :
    _chunk l 10 = l.take 10 :: _chunk (l.drop 10) 10 := by
  have hlen : 0 < l.length := List.length_pos.mpr h
  unfold _chunk
  have hdiv : (l.length + 10 - 1) / 10 = ((l.drop 10).length + 10 - 1) / 10 + 1 := by
    rw [List.length_drop]; omega
  rw [hdiv, List.range_succ_eq_map, List.map_cons, List.map_map]
  have hhead : List.take 10 (List.drop (0 * 10) l) = List.take 10 l := by simp
  have htail :
      List.map ((fun j => List.take 10 (List.drop (j * 10) l)) ∘ Nat.succ)
          (List.range (((List.drop 10 l).length + 10 - 1) / 10))
        = List.map (fun j => List.take 10 (List.drop (j * 10) (List.drop 10 l)))
          (List.range (((List.drop 10 l).length + 10 - 1) / 10)) := by
    refine List.map_congr_left ?_
    intro j hj
    simp only [Function.comp_apply]
    rw [List.drop_drop]
    have harg : Nat.succ j * 10 = 10 + j * 10 := by omega
    rw [harg]
  rw [hhead, htail]

theorem chunk10_join_aux {α : Type} :
    ∀ (n : Nat) (l : List α), l.length ≤ n → (_chunk l 10).flatten = l := by
  intro n
  induction n with
  | zero =>
      intro l hl
      have : l = [] := List.eq_nil_of_length_eq_zero (Nat.le_zero.mp hl)
      subst this; rw [chunk10_nil]; rfl
  | succ n ih =>
      intro l hl
      rcases eq_or_ne l [] with rfl | h
      · rw [chunk10_nil]; rfl
      · rw [chunk10_cons l h, List.flatten_cons]
        rw [ih (l.drop 10) (by rw [List.length_drop]; have := List.length_pos.mpr h; omega)]
        exact List.take_append_drop 10 l

theorem chunk10_join {α : Type} (l : List α) : (_chunk l 10).flatten = l :=
  chunk10_join_aux l.length l le_rfl

theorem chunk10_sizes_aux {α : Type} :
    ∀ (n : Nat) (l : List α), l.length ≤ n → ∀ c ∈ _chunk l 10, c.length ≤ 10 := by
  intro n
  induction n with
  | zero =>
      intro l hl c hc
      have : l = [] := List.eq_nil_of_length_eq_zero (Nat.le_zero.mp hl)
      subst this
      simp [chunk10_nil] at hc
  | succ n ih =>
      intro l hl c hc
      rcases eq_or_ne l [] with rfl | h
      · simp [chunk10_nil] at hc
      · rw [chunk10_cons l h] at hc
        rcases List.mem_cons.mp hc with rfl | hc
        · rw [List.length_take]; omega
        · exact ih (l.drop 10)
            (by rw [List.length_drop]; have := List.length_pos.mpr h; omega) c hc

theorem chunk10_sizes {α : Type} (l : List α) : ∀ c ∈ _chunk l 10, c.length ≤ 10 :=
  chunk10_sizes_aux l.length l le_rfl

theorem chunk10_of_length_23 {α : Type} (l : List α) (h : l.length = 23) :
    (_chunk l 10).map List.length = [10, 10, 3] := by
  have h1 : l ≠ [] := by intro he; subst he; simp at h
  rw [chunk10_cons l h1]
  have hd1 : (l.drop 10).length = 13 := by rw [List.length_drop, h]
  have h2 : l.drop 10 ≠ [] := by intro he; rw [he] at hd1; simp at hd1
  rw [chunk10_cons _ h2]
  have hd2 : ((l.drop 10).drop 10).length = 3 := by rw [List.length_drop, hd1]
  have h3 : (l.drop 10).drop 10 ≠ [] := by intro he; rw [he] at hd2; simp at hd2
  rw [chunk10_cons _ h3]
  have hd3 : (((l.drop 10).drop 10).drop 10).length = 0 := by rw [List.length_drop, hd2]
  have h4 : ((l.drop 10).drop 10).drop 10 = [] := List.eq_nil_of_length_eq_zero hd3
  rw [h4, chunk10_nil]
  simp only [List.map_cons, List.map_nil, List.length_take, h, hd1, hd2]
  norm_num

/-- C3: every flushed batch is split into consecutive chunks of at most 10
entries, order preserved, with one `send_media_group` call per chunk in
order; the chunks concatenate back to the input sequence, and a batch of 23
entries yields exactly 3 calls of sizes 10, 10, 3. -/
theorem c3_chunked_batch_sends (gcid : Int) (ag : AggState) (key : String)
    (tid : Option Int) (msgs : List Msg)
    (hbuf : dictGet key ag.media_groups = some msgs) (hne : msgs ≠ []) :
    (process_media_group_UG gcid ag key tid).2
        = (_chunk (build_media_all msgs) 10).map (Effect.sendMediaGroup gcid tid)
      ∧ (∀ c ∈ _chunk (build_media_all msgs) 10, c.length ≤ 10)
      ∧ (_chunk (build_media_all msgs) 10).flatten = build_media_all msgs
      ∧ ((build_media_all msgs).length = 23 →
          (_chunk (build_media_all msgs) 10).map List.length = [10, 10, 3]) := by
  refine ⟨?_, chunk10_sizes _, chunk10_join _, fun h => chunk10_of_length_23 _ h⟩
  unfold process_media_group_UG
  rw [hbuf]
  have hempty : msgs.isEmpty = false := by
    cases msgs with
    | nil => exact absurd rfl hne
    | cons a b => rfl
  simp [hempty]

/-! ### Caption assignment in the batch builder -/

theorem build_media_with_pos (fc : String) :
    ∀ (l : List Msg) (i : Nat), i ≠ 0 →
      (build_media_with fc i l).map capOf = List.replicate (l.countP isMediaKind) "" := by
  intro l
  induction l with
  | nil => intro i hi; rfl
  | cons m rest ih =>
      intro i hi
      simp only [build_media_with, if_neg hi, List.countP_cons]
      by_cases hp : m.photo = []
      · rw [if_neg (by simp [hp])]
        cases hv : m.video with
        | some v =>
            have hk : isMediaKind m = true := by simp [isMediaKind, hv]
            simp [hk, capOf, ih (i + 1) (by omega), List.replicate_succ]
        | none =>
            cases hd : m.document with
            | some d =>
                have hk : isMediaKind m = true := by simp [isMediaKind, hd]
                simp [hk, capOf, ih (i + 1) (by omega), List.replicate_succ]
            | none =>
                have hk : isMediaKind m = false := by simp [isMediaKind, hp, hv, hd]
                simp [hk, ih (i + 1) (by omega)]
      · rw [if_pos hp]
        have hk : isMediaKind m = true := by simp [isMediaKind, hp]
        simp [hk, capOf, ih (i + 1) (by omega), List.replicate_succ]

theorem build_media_all_caption (msgs : List Msg) :
    (build_media_all msgs).map capOf =
      match msgs with
      | [] => []
      | m :: rest =>
          if isMediaKind m then
            _first_non_empty_caption (m :: rest) :: List.replicate (rest.countP isMediaKind) ""
          else List.replicate ((m :: rest).countP isMediaKind) "" := by
  cases msgs with
  | nil => rfl
  | cons m rest =>
      unfold build_media_all
      simp only [build_media_with, if_pos rfl]
      by_cases hp : m.photo = []
      · rw [if_neg (by simp [hp])]
        cases hv : m.video with
        | some v =>
            have hk : isMediaKind m = true := by simp [isMediaKind, hv]
            simp [hk, capOf, build_media_with_pos _ rest 1 (by omega)]
        | none =>
            cases hd : m.document with
            | some d =>
                have hk : isMediaKind m = true := by simp [isMediaKind, hd]
                simp [hk, capOf, build_media_with_pos _ rest 1 (by omega)]
            | none =>
                have hk : isMediaKind m = false := by simp [isMediaKind, hp, hv, hd]
                simp [hk, build_media_with_pos _ rest 1 (by omega), List.countP_cons]
      · rw [if_pos hp]
        have hk : isMediaKind m = true := by simp [isMediaKind, hp]
        simp [hk, capOf, build_media_with_pos _ rest 1 (by omega)]

/-- C2 counterexample: a flushed buffer whose first message is a captioned
voice note (which yields no batch entry) followed by an uncaptioned photo.
The effective caption is `"hello"`, the batch is non-empty, yet its first
entry is assigned `""` — the effective caption is not assigned to the first
batch entry. -/
theorem c2_counterexample :
    _first_non_empty_caption
        [Msg.mk 0 7 "" "hello" [] none none (some "v1") (some "g") none none,
         Msg.mk 0 7 "" "" ["p1"] none none none (some "g") none none] = "hello"
      ∧ build_media_all
          [Msg.mk 0 7 "" "hello" [] none none (some "v1") (some "g") none none,
           Msg.mk 0 7 "" "" ["p1"] none none none (some "g") none none]
          = [InputMedia.photo "p1" ""]
      ∧ ((build_media_all
          [Msg.mk 0 7 "" "hello" [] none none (some "v1") (some "g") none none,
           Msg.mk 0 7 "" "" ["p1"] none none none (some "g") none none]).map capOf).head?
          ≠ some "hello" := by
  refine ⟨by decide, by decide, by decide⟩

/-- C2 (amended): only photo, video and document payloads produce batch
entries (the batch has exactly one entry per such payload, all other kinds
are excluded), and the effective caption — the first non-empty caption in
arrival order, `""` if none — is assigned to the entry derived from the
*first buffered message*: when that message is a photo/video/document its
entry (the first batch entry) carries the effective caption and every other
entry carries `""`; when the first buffered message yields no entry, every
entry of the batch carries `""`. -/
theorem c2_caption_assignment_amended (msgs : List Msg) :
    (build_media_all msgs).length = msgs.countP isMediaKind
      ∧ (build_media_all msgs).map capOf =
          (match msgs with
           | [] => []
           | m :: rest =>
               if isMediaKind m then
                 _first_non_empty_caption (m :: rest)
                   :: List.replicate (rest.countP isMediaKind) ""
               else List.replicate ((m :: rest).countP isMediaKind) "") := by
  refine ⟨?_, build_media_all_caption msgs⟩
  have h := congrArg List.length (build_media_all_caption msgs)
  rw [List.length_map] at h
  rw [h]
  cases msgs with
  | nil => rfl
  | cons m rest =>
      by_cases hk : isMediaKind m
      · simp [hk, List.countP_cons]
      · simp [hk]

/-! ### Association-list facts -/

theorem dictGet_eq_none_iff {κ α : Type} [DecidableEq κ] (k : κ) (l : List (κ × α)) :
    dictGet k l = none ↔ ∀ p ∈ l, p.1 ≠ k := by
  induction l with
  | nil => simp [dictGet]
  | cons p rest ih =>
      obtain ⟨k', v⟩ := p
      by_cases h : k = k'
      · subst h; simp [dictGet]
      · have h' : k' ≠ k := fun he => h he.symm
        simp [dictGet, h, ih, h']

theorem groupAppend_absent {κ α : Type} [DecidableEq κ] (k : κ) (m : α)
    (l : List (κ × List α)) (h : ∀ p ∈ l, p.1 ≠ k) :
    groupAppend k m l = l ++ [(k, [m])] := by
  induction l with
  | nil => rfl
  | cons p rest ih =>
      obtain ⟨k', ms⟩ := p
      have hk : ¬k = k' := fun he => (h (k', ms) (by simp)) he.symm
      simp only [groupAppend, if_neg hk, List.cons_append]
      rw [ih (fun q hq => h q (List.mem_cons_of_mem _ hq))]

theorem groupAppend_last {κ α : Type} [DecidableEq κ] (k : κ) (m : α) (ms : List α)
    (l : List (κ × List α)) (h : ∀ p ∈ l, p.1 ≠ k) :
    groupAppend k m (l ++ [(k, ms)]) = l ++ [(k, ms ++ [m])] := by
  induction l with
  | nil => simp [groupAppend]
  | cons p rest ih =>
      obtain ⟨k', ms'⟩ := p
      have hk : ¬k = k' := fun he => (h (k', ms') (by simp)) he.symm
      simp only [List.cons_append, groupAppend, if_neg hk, List.append_eq]
      rw [ih (fun q hq => h q (List.mem_cons_of_mem _ hq))]

theorem dictGet_last {κ α : Type} [DecidableEq κ] (k : κ) (v : α)
    (l : List (κ × α)) (h : ∀ p ∈ l, p.1 ≠ k) :
    dictGet k (l ++ [(k, v)]) = some v := by
  induction l with
  | nil => simp [dictGet]
  | cons p rest ih =>
      obtain ⟨k', v'⟩ := p
      have hk : ¬k = k' := fun he => (h (k', v') (by simp)) he.symm
      simp only [List.cons_append, dictGet, if_neg hk]
      exact ih (fun q hq => h q (List.mem_cons_of_mem _ hq))

theorem dictErase_last {κ α : Type} [DecidableEq κ] (k : κ) (v : α)
    (l : List (κ × α)) (h : ∀ p ∈ l, p.1 ≠ k) :
    dictErase k (l ++ [(k, v)]) = l := by
  induction l with
  | nil => simp [dictErase]
  | cons p rest ih =>
      obtain ⟨k', v'⟩ := p
      have hk : ¬k = k' := fun he => (h (k', v') (by simp)) he.symm
      simp only [List.cons_append, dictErase, if_neg hk, List.append_eq]
      rw [ih (fun q hq => h q (List.mem_cons_of_mem _ hq))]

theorem dictErase_absent {κ α : Type} [DecidableEq κ] (k : κ)
    (l : List (κ × α)) (h : ∀ p ∈ l, p.1 ≠ k) :
    dictErase k l = l := by
  induction l with
  | nil => rfl
  | cons p rest ih =>
      obtain ⟨k', v'⟩ := p
      have hk : ¬k = k' := fun he => (h (k', v') (by simp)) he.symm
      simp only [dictErase, if_neg hk]
      rw [ih (fun q hq => h q (List.mem_cons_of_mem _ hq))]

theorem keyErase_not_mem (k : String) (l : List String) (h : k ∉ l) :
    keyErase k l = l := by
  induction l with
  | nil => rfl
  | cons k' rest ih =>
      have hk : ¬k = k' := fun he => h (he ▸ List.mem_cons_self k rest)
      simp only [keyErase, if_neg hk]
      rw [ih (fun hm => h (List.mem_cons_of_mem _ hm))]

theorem keyErase_last (k : String) (l : List String) (h : k ∉ l) :
    keyErase k (l ++ [k]) = l := by
  induction l with
  | nil => simp [keyErase]
  | cons k' rest ih =>
      have hk : ¬k = k' := fun he => h (he ▸ List.mem_cons_self k rest)
      simp only [List.cons_append, keyErase, if_neg hk, List.append_eq]
      rw [ih (fun hm => h (List.mem_cons_of_mem _ hm))]

theorem count_append_self (k : String) (l : List String) (h : k ∉ l) :
    (l ++ [k]).count k = 1 := by
  rw [List.count_append, List.count_eq_zero.mpr h]
  simp

theorem dictGet_insert_self {κ α : Type} [DecidableEq κ] (k : κ) (v : α)
    (l : List (κ × α)) : dictGet k (dictInsert k v l) = some v := by
  induction l with
  | nil => simp [dictInsert, dictGet]
  | cons p rest ih =>
      obtain ⟨k', v'⟩ := p
      by_cases h : k = k'
      · subst h; simp [dictInsert, dictGet]
      · simp only [dictInsert, if_neg h, dictGet, if_neg h]
        exact ih

/-! ### The aggregation scheduler: at most one flush per key -/

/-- C1: for a previously-unseen burst key, two enqueues for that key
register exactly one flush task (the first registers, the second does not,
and the task table holds the key once); the flush task atomically removes
the buffer for the key, and a second flush on the same key observes an
absent buffer and performs no sends and no state change — no key is flushed
twice.  (The two enqueues compose sequentially: the event loop is single
threaded and the check-then-register sequence contains no suspension
point.) -/
theorem c1_at_most_one_flush (gcid : Int) (gid : String) (ag : AggState)
    (m1 m2 : Msg) (tid : Option Int)
    (htask : ("UG:" ++ gid) ∉ ag.media_group_tasks)
    (hbuf : dictGet ("UG:" ++ gid) ag.media_groups = none) :
    (mg_enqueue ag ("UG:" ++ gid) m1).2 = true
      ∧ (mg_enqueue (mg_enqueue ag ("UG:" ++ gid) m1).1 ("UG:" ++ gid) m2).2 = false
      ∧ (mg_enqueue (mg_enqueue ag ("UG:" ++ gid) m1).1 ("UG:" ++ gid) m2).1.media_group_tasks.count ("UG:" ++ gid) = 1
      ∧ dictGet ("UG:" ++ gid) (mg_enqueue (mg_enqueue ag ("UG:" ++ gid) m1).1 ("UG:" ++ gid) m2).1.media_groups = some [m1, m2]
      ∧ dictGet ("UG:" ++ gid) (process_media_group_UG gcid (mg_enqueue (mg_enqueue ag ("UG:" ++ gid) m1).1 ("UG:" ++ gid) m2).1 ("UG:" ++ gid) tid).1.media_groups = none
      ∧ (process_media_group_UG gcid (process_media_group_UG gcid (mg_enqueue (mg_enqueue ag ("UG:" ++ gid) m1).1 ("UG:" ++ gid) m2).1 ("UG:" ++ gid) tid).1 ("UG:" ++ gid) tid).2 = []
      ∧ (process_media_group_UG gcid (process_media_group_UG gcid (mg_enqueue (mg_enqueue ag ("UG:" ++ gid) m1).1 ("UG:" ++ gid) m2).1 ("UG:" ++ gid) tid).1 ("UG:" ++ gid) tid).1 = (process_media_group_UG gcid (mg_enqueue (mg_enqueue ag ("UG:" ++ gid) m1).1 ("UG:" ++ gid) m2).1 ("UG:" ++ gid) tid).1 := by
  have hall : ∀ p ∈ ag.media_groups, p.1 ≠ ("UG:" ++ gid) :=
    (dictGet_eq_none_iff _ _).mp hbuf
  have he1 : mg_enqueue ag ("UG:" ++ gid) m1
      = (AggState.mk (ag.media_groups ++ [("UG:" ++ gid, [m1])])
          (ag.media_group_tasks ++ ["UG:" ++ gid]), true) := by
    unfold mg_enqueue
    rw [groupAppend_absent _ _ _ hall, if_neg htask]
  have he2 : mg_enqueue
        (AggState.mk (ag.media_groups ++ [("UG:" ++ gid, [m1])])
          (ag.media_group_tasks ++ ["UG:" ++ gid])) ("UG:" ++ gid) m2
      = (AggState.mk (ag.media_groups ++ [("UG:" ++ gid, [m1, m2])])
          (ag.media_group_tasks ++ ["UG:" ++ gid]), false) := by
    unfold mg_enqueue
    rw [groupAppend_last _ _ _ _ hall, if_pos (by simp)]
    rfl
  have hf1 : process_media_group_UG gcid
        (AggState.mk (ag.media_groups ++ [("UG:" ++ gid, [m1, m2])])
          (ag.media_group_tasks ++ ["UG:" ++ gid])) ("UG:" ++ gid) tid
      = (ag, (_chunk (build_media_all [m1, m2]) 10).map
          (Effect.sendMediaGroup gcid tid)) := by
    unfold process_media_group_UG
    rw [dictGet_last _ _ _ hall, dictErase_last _ _ _ hall, keyErase_last _ _ htask]
    rfl
  have hf2 : process_media_group_UG gcid ag ("UG:" ++ gid) tid = (ag, []) := by
    unfold process_media_group_UG
    rw [hbuf, dictErase_absent _ _ hall, keyErase_not_mem _ _ htask]
    rfl
  refine ⟨by simp [he1], by simp [he1, he2], ?_, ?_, ?_, ?_, ?_⟩
  · simp only [he1, he2]
    exact count_append_self _ _ htask
  · simp only [he1, he2]
    exact dictGet_last _ _ _ hall
  · simp only [he1, he2, hf1]
    exact hbuf
  · simp only [he1, he2, hf1, hf2]
  · simp only [he1, he2, hf1, hf2]

/-- Witness for C1 at a concrete fresh key and two concrete album photos. -/
theorem c1_at_most_one_flush_witness :
    (("UG:" ++ "g") ∉ (AggState.mk [] []).media_group_tasks
        ∧ dictGet ("UG:" ++ "g") (AggState.mk [] []).media_groups = none)
      ∧ ((mg_enqueue (AggState.mk [] []) ("UG:" ++ "g") (Msg.mk 1 7 "" "" ["a"] none none none (some "g") none none)).2 = true
          ∧ (mg_enqueue (mg_enqueue (AggState.mk [] []) ("UG:" ++ "g") (Msg.mk 1 7 "" "" ["a"] none none none (some "g") none none)).1 ("UG:" ++ "g") (Msg.mk 1 7 "" "cap" ["b"] none none none (some "g") none none)).2 = false
          ∧ (mg_enqueue (mg_enqueue (AggState.mk [] []) ("UG:" ++ "g") (Msg.mk 1 7 "" "" ["a"] none none none (some "g") none none)).1 ("UG:" ++ "g") (Msg.mk 1 7 "" "cap" ["b"] none none none (some "g") none none)).1.media_group_tasks.count ("UG:" ++ "g") = 1
          ∧ dictGet ("UG:" ++ "g") (mg_enqueue (mg_enqueue (AggState.mk [] []) ("UG:" ++ "g") (Msg.mk 1 7 "" "" ["a"] none none none (some "g") none none)).1 ("UG:" ++ "g") (Msg.mk 1 7 "" "cap" ["b"] none none none (some "g") none none)).1.media_groups = some [(Msg.mk 1 7 "" "" ["a"] none none none (some "g") none none), (Msg.mk 1 7 "" "cap" ["b"] none none none (some "g") none none)]
          ∧ dictGet ("UG:" ++ "g") (process_media_group_UG (-100) (mg_enqueue (mg_enqueue (AggState.mk [] []) ("UG:" ++ "g") (Msg.mk 1 7 "" "" ["a"] none none none (some "g") none none)).1 ("UG:" ++ "g") (Msg.mk 1 7 "" "cap" ["b"] none none none (some "g") none none)).1 ("UG:" ++ "g") (some 5)).1.media_groups = none
          ∧ (process_media_group_UG (-100) (process_media_group_UG (-100) (mg_enqueue (mg_enqueue (AggState.mk [] []) ("UG:" ++ "g") (Msg.mk 1 7 "" "" ["a"] none none none (some "g") none none)).1 ("UG:" ++ "g") (Msg.mk 1 7 "" "cap" ["b"] none none none (some "g") none none)).1 ("UG:" ++ "g") (some 5)).1 ("UG:" ++ "g") (some 5)).2 = []
          ∧ (process_media_group_UG (-100) (process_media_group_UG (-100) (mg_enqueue (mg_enqueue (AggState.mk [] []) ("UG:" ++ "g") (Msg.mk 1 7 "" "" ["a"] none none none (some "g") none none)).1 ("UG:" ++ "g") (Msg.mk 1 7 "" "cap" ["b"] none none none (some "g") none none)).1 ("UG:" ++ "g") (some 5)).1 ("UG:" ++ "g") (some 5)).1 = (process_media_group_UG (-100) (mg_enqueue (mg_enqueue (AggState.mk [] []) ("UG:" ++ "g") (Msg.mk 1 7 "" "" ["a"] none none none (some "g") none none)).1 ("UG:" ++ "g") (Msg.mk 1 7 "" "cap" ["b"] none none none (some "g") none none)).1 ("UG:" ++ "g") (some 5)).1) :=
  ⟨⟨by decide, by decide⟩,
    c1_at_most_one_flush (-100) "g" (AggState.mk [] []) (Msg.mk 1 7 "" "" ["a"] none none none (some "g") none none) (Msg.mk 1 7 "" "cap" ["b"] none none none (some "g") none none) (some 5) (by decide) (by decide)⟩

/-! ### The fixed-deadline timed model -/

theorem AggState.ext' (a b : AggState) (h1 : a.media_groups = b.media_groups)
    (h2 : a.media_group_tasks = b.media_group_tasks) : a = b := by
  cases a; cases b; cases h1; cases h2; rfl

theorem fold_timed_registered (gid : String) :
    ∀ (rest : List (Rat × Msg)) (s : TimedAgg) (A : List (String × List Msg)) (ms : List Msg),
      ("UG:" ++ gid) ∈ s.ag.media_group_tasks →
      s.ag.media_groups = A ++ [("UG:" ++ gid, ms)] →
      (∀ p ∈ A, p.1 ≠ "UG:" ++ gid) →
      (rest.foldl (fun t a => timed_enqueue_private t a.1 gid a.2) s).fire = s.fire
        ∧ (rest.foldl (fun t a => timed_enqueue_private t a.1 gid a.2) s).ag.media_group_tasks
            = s.ag.media_group_tasks
        ∧ (rest.foldl (fun t a => timed_enqueue_private t a.1 gid a.2) s).ag.media_groups
            = A ++ [("UG:" ++ gid, ms ++ rest.map Prod.snd)] := by
  intro rest
  induction rest with
  | nil =>
      intro s A ms htask hmg hA
      simp only [List.foldl_nil, List.map_nil, List.append_nil]
      exact ⟨trivial, trivial, hmg⟩
  | cons a rest ih =>
      intro s A ms htask hmg hA
      obtain ⟨t, m⟩ := a
      have hs1 : timed_enqueue_private s t gid m
          = TimedAgg.mk
              (AggState.mk (A ++ [("UG:" ++ gid, ms ++ [m])]) s.ag.media_group_tasks)
              s.fire := by
        unfold timed_enqueue_private mg_enqueue
        rw [hmg, groupAppend_last _ _ _ _ hA, if_pos htask]
        rfl
      rw [List.foldl_cons]
      have hres := ih (timed_enqueue_private s t gid m) A (ms ++ [m])
        (by rw [hs1]; exact htask) (by rw [hs1]) hA
      obtain ⟨hf, ht, hm⟩ := hres
      refine ⟨by rw [hf, hs1], by rw [ht, hs1], ?_⟩
      rw [hm]
      simp

/-- C6: for a burst whose members all arrive within one time unit of the
first arrival at `t1`, folding the enqueues leaves exactly one registered
flush task for the key, scheduled at the fixed deadline `t1 + 1` (later
arrivals append to the buffer but never replace, cancel or reschedule the
task), the buffer holds all members in arrival order, and the single flush
at that deadline emits the batch built from the whole buffer while a
repeated flush is a no-op. -/
theorem c6_fixed_deadline (gcid : Int) (gid : String) (tid : Option Int) (t0 : TimedAgg)
    (t1 : Rat) (m1 : Msg) (rest : List (Rat × Msg))
    (hwin : ∀ a ∈ (t1, m1) :: rest, t1 ≤ a.1 ∧ a.1 < t1 + 1)
    (htask : ("UG:" ++ gid) ∉ t0.ag.media_group_tasks)
    (hbuf : dictGet ("UG:" ++ gid) t0.ag.media_groups = none)
    (hfire : dictGet ("UG:" ++ gid) t0.fire = none) :
    dictGet ("UG:" ++ gid) (((t1, m1) :: rest).foldl (fun s a => timed_enqueue_private s a.1 gid a.2) t0).fire = some (t1 + 1)
      ∧ (((t1, m1) :: rest).foldl (fun s a => timed_enqueue_private s a.1 gid a.2) t0).ag.media_group_tasks.count ("UG:" ++ gid) = 1
      ∧ dictGet ("UG:" ++ gid) (((t1, m1) :: rest).foldl (fun s a => timed_enqueue_private s a.1 gid a.2) t0).ag.media_groups = some (((t1, m1) :: rest).map Prod.snd)
      ∧ (process_media_group_UG gcid (((t1, m1) :: rest).foldl (fun s a => timed_enqueue_private s a.1 gid a.2) t0).ag ("UG:" ++ gid) tid).2
          = (_chunk (build_media_all (((t1, m1) :: rest).map Prod.snd)) 10).map
              (Effect.sendMediaGroup gcid tid)
      ∧ dictGet ("UG:" ++ gid) (process_media_group_UG gcid (((t1, m1) :: rest).foldl (fun s a => timed_enqueue_private s a.1 gid a.2) t0).ag ("UG:" ++ gid) tid).1.media_groups = none
      ∧ (process_media_group_UG gcid (process_media_group_UG gcid (((t1, m1) :: rest).foldl (fun s a => timed_enqueue_private s a.1 gid a.2) t0).ag ("UG:" ++ gid) tid).1 ("UG:" ++ gid) tid).2 = [] := by
  have hall : ∀ p ∈ t0.ag.media_groups, p.1 ≠ ("UG:" ++ gid) :=
    (dictGet_eq_none_iff _ _).mp hbuf
  have hallf : ∀ p ∈ t0.fire, p.1 ≠ ("UG:" ++ gid) :=
    (dictGet_eq_none_iff _ _).mp hfire
  have hs1 : timed_enqueue_private t0 t1 gid m1
      = TimedAgg.mk
          (AggState.mk (t0.ag.media_groups ++ [("UG:" ++ gid, [m1])])
            (t0.ag.media_group_tasks ++ ["UG:" ++ gid]))
          (t0.fire ++ [("UG:" ++ gid, t1 + 1)]) := by
    unfold timed_enqueue_private mg_enqueue
    rw [groupAppend_absent _ _ _ hall, if_neg htask]
    rfl
  obtain ⟨hf, ht, hm⟩ := fold_timed_registered gid rest (timed_enqueue_private t0 t1 gid m1)
    t0.ag.media_groups [m1] (by rw [hs1]; simp) (by rw [hs1]) hall
  have hstep : ((t1, m1) :: rest).foldl (fun s a => timed_enqueue_private s a.1 gid a.2) t0
      = rest.foldl (fun t a => timed_enqueue_private t a.1 gid a.2)
          (timed_enqueue_private t0 t1 gid m1) := by
    rw [List.foldl_cons]
  have hmg2 : (rest.foldl (fun t a => timed_enqueue_private t a.1 gid a.2)
        (timed_enqueue_private t0 t1 gid m1)).ag.media_groups
      = t0.ag.media_groups ++ [("UG:" ++ gid, ((t1, m1) :: rest).map Prod.snd)] := by
    rw [hm]
    simp
  have hag : (rest.foldl (fun t a => timed_enqueue_private t a.1 gid a.2)
        (timed_enqueue_private t0 t1 gid m1)).ag
      = AggState.mk
          (t0.ag.media_groups ++ [("UG:" ++ gid, ((t1, m1) :: rest).map Prod.snd)])
          (t0.ag.media_group_tasks ++ ["UG:" ++ gid]) :=
    AggState.ext' _ _ hmg2 (by rw [ht, hs1])
  have hflush : process_media_group_UG gcid
        (AggState.mk
          (t0.ag.media_groups ++ [("UG:" ++ gid, ((t1, m1) :: rest).map Prod.snd)])
          (t0.ag.media_group_tasks ++ ["UG:" ++ gid])) ("UG:" ++ gid) tid
      = (t0.ag, (_chunk (build_media_all (((t1, m1) :: rest).map Prod.snd)) 10).map
          (Effect.sendMediaGroup gcid tid)) := by
    unfold process_media_group_UG
    rw [dictGet_last _ _ _ hall, dictErase_last _ _ _ hall, keyErase_last _ _ htask]
    rfl
  have hflush2 : process_media_group_UG gcid t0.ag ("UG:" ++ gid) tid = (t0.ag, []) := by
    unfold process_media_group_UG
    rw [hbuf, dictErase_absent _ _ hall, keyErase_not_mem _ _ htask]
    rfl
  refine ⟨?_, ?_, ?_, ?_, ?_, ?_⟩
  · rw [hstep, hf, hs1]
    exact dictGet_last _ _ _ hallf
  · rw [hstep, ht, hs1]
    exact count_append_self _ _ htask
  · rw [hstep, hmg2]
    exact dictGet_last _ _ _ hall
  · simp only [hstep, hag, hflush]
  · simp only [hstep, hag, hflush]
    exact hbuf
  · simp only [hstep, hag, hflush, hflush2]

/-- Witness for C6: a three-member burst arriving at times 0, 3/10 and 9/10,
all within the one-unit window. -/
theorem c6_fixed_deadline_witness :
    ((∀ a ∈ ((0, (Msg.mk 1 7 "" "" ["a"] none none none (some "g") none none)) :: [((3 : Rat) / 10, (Msg.mk 1 7 "" "x" ["b"] none none none (some "g") none none)), ((9 : Rat) / 10, (Msg.mk 1 7 "" "" ["c"] none none none (some "g") none none))]), (0 : Rat) ≤ a.1 ∧ a.1 < 0 + 1)
        ∧ ("UG:" ++ "g") ∉ (TimedAgg.mk (AggState.mk [] []) []).ag.media_group_tasks
        ∧ dictGet ("UG:" ++ "g") (TimedAgg.mk (AggState.mk [] []) []).ag.media_groups = none
        ∧ dictGet ("UG:" ++ "g") (TimedAgg.mk (AggState.mk [] []) []).fire = none)
      ∧ (dictGet ("UG:" ++ "g") (((0, (Msg.mk 1 7 "" "" ["a"] none none none (some "g") none none)) :: [((3 : Rat) / 10, (Msg.mk 1 7 "" "x" ["b"] none none none (some "g") none none)), ((9 : Rat) / 10, (Msg.mk 1 7 "" "" ["c"] none none none (some "g") none none))]).foldl (fun s a => timed_enqueue_private s a.1 "g" a.2) (TimedAgg.mk (AggState.mk [] []) [])).fire = some ((0 : Rat) + 1)
          ∧ (((0, (Msg.mk 1 7 "" "" ["a"] none none none (some "g") none none)) :: [((3 : Rat) / 10, (Msg.mk 1 7 "" "x" ["b"] none none none (some "g") none none)), ((9 : Rat) / 10, (Msg.mk 1 7 "" "" ["c"] none none none (some "g") none none))]).foldl (fun s a => timed_enqueue_private s a.1 "g" a.2) (TimedAgg.mk (AggState.mk [] []) [])).ag.media_group_tasks.count ("UG:" ++ "g") = 1
          ∧ dictGet ("UG:" ++ "g") (((0, (Msg.mk 1 7 "" "" ["a"] none none none (some "g") none none)) :: [((3 : Rat) / 10, (Msg.mk 1 7 "" "x" ["b"] none none none (some "g") none none)), ((9 : Rat) / 10, (Msg.mk 1 7 "" "" ["c"] none none none (some "g") none none))]).foldl (fun s a => timed_enqueue_private s a.1 "g" a.2) (TimedAgg.mk (AggState.mk [] []) [])).ag.media_groups = some (((0, (Msg.mk 1 7 "" "" ["a"] none none none (some "g") none none)) :: [((3 : Rat) / 10, (Msg.mk 1 7 "" "x" ["b"] none none none (some "g") none none)), ((9 : Rat) / 10, (Msg.mk 1 7 "" "" ["c"] none none none (some "g") none none))]).map Prod.snd)
          ∧ (process_media_group_UG (-100) (((0, (Msg.mk 1 7 "" "" ["a"] none none none (some "g") none none)) :: [((3 : Rat) / 10, (Msg.mk 1 7 "" "x" ["b"] none none none (some "g") none none)), ((9 : Rat) / 10, (Msg.mk 1 7 "" "" ["c"] none none none (some "g") none none))]).foldl (fun s a => timed_enqueue_private s a.1 "g" a.2) (TimedAgg.mk (AggState.mk [] []) [])).ag ("UG:" ++ "g") (some 5)).2
              = (_chunk (build_media_all (((0, (Msg.mk 1 7 "" "" ["a"] none none none (some "g") none none)) :: [((3 : Rat) / 10, (Msg.mk 1 7 "" "x" ["b"] none none none (some "g") none none)), ((9 : Rat) / 10, (Msg.mk 1 7 "" "" ["c"] none none none (some "g") none none))]).map Prod.snd)) 10).map
                  (Effect.sendMediaGroup (-100) (some 5))
          ∧ dictGet ("UG:" ++ "g") (process_media_group_UG (-100) (((0, (Msg.mk 1 7 "" "" ["a"] none none none (some "g") none none)) :: [((3 : Rat) / 10, (Msg.mk 1 7 "" "x" ["b"] none none none (some "g") none none)), ((9 : Rat) / 10, (Msg.mk 1 7 "" "" ["c"] none none none (some "g") none none))]).foldl (fun s a => timed_enqueue_private s a.1 "g" a.2) (TimedAgg.mk (AggState.mk [] []) [])).ag ("UG:" ++ "g") (some 5)).1.media_groups = none
          ∧ (process_media_group_UG (-100) (process_media_group_UG (-100) (((0, (Msg.mk 1 7 "" "" ["a"] none none none (some "g") none none)) :: [((3 : Rat) / 10, (Msg.mk 1 7 "" "x" ["b"] none none none (some "g") none none)), ((9 : Rat) / 10, (Msg.mk 1 7 "" "" ["c"] none none none (some "g") none none))]).foldl (fun s a => timed_enqueue_private s a.1 "g" a.2) (TimedAgg.mk (AggState.mk [] []) [])).ag ("UG:" ++ "g") (some 5)).1 ("UG:" ++ "g") (some 5)).2 = []) :=
  ⟨⟨by intro a ha; fin_cases ha <;> norm_num, by decide, by decide, by decide⟩,
    c6_fixed_deadline (-100) "g" (some 5) (TimedAgg.mk (AggState.mk [] []) []) 0 (Msg.mk 1 7 "" "" ["a"] none none none (some "g") none none)
      [((3 : Rat) / 10, (Msg.mk 1 7 "" "x" ["b"] none none none (some "g") none none)), ((9 : Rat) / 10, (Msg.mk 1 7 "" "" ["c"] none none none (some "g") none none))]
      (by intro a ha; fin_cases ha <;> norm_num) (by decide) (by decide) (by decide)⟩

/-! ### Reverse lookup with repair -/

theorem repair_scan_finds (T : Int) (l : List (Int × TopicRecord))
    (h : ∃ p ∈ l, p.2.topic_id = some T) :
    ∃ uid rec, repair_scan T l = some uid ∧ (uid, rec) ∈ l ∧ rec.topic_id = some T := by
  induction l with
  | nil =>
      obtain ⟨p, hp, _⟩ := h
      simp at hp
  | cons q rest ih =>
      obtain ⟨uid0, rec0⟩ := q
      by_cases hq : rec0.topic_id = some T
      · exact ⟨uid0, rec0, by simp [repair_scan, hq], by simp, hq⟩
      · obtain ⟨p, hp, hpt⟩ := h
        rcases List.mem_cons.mp hp with rfl | hp'
        · exact absurd hpt hq
        · obtain ⟨uid, rec, h1, h2, h3⟩ := ih ⟨p, hp', hpt⟩
          exact ⟨uid, rec, by simp [repair_scan, hq, h1], List.mem_cons_of_mem _ h2, h3⟩

/-- C4: when the reverse index has no entry for thread `T` but some
correspondent record has `topic_id = T`, the resolution block performs its
linear scan over the records, returns that (first matching) correspondent's
identity, and afterwards the reverse index contains `T ↦ identity` and the
repaired store has been persisted; when no record matches, the resolution
returns `none` with no store change and no write. -/
theorem c4_self_healing_reverse_lookup (st : Store) (T : Int)
    (hmiss : dictGet T st.topic_to_user = none) :
    ((∃ p ∈ st.user_topics, p.2.topic_id = some T) →
        ∃ uid rec, repair_scan T st.user_topics = some uid
          ∧ (uid, rec) ∈ st.user_topics ∧ rec.topic_id = some T
          ∧ (resolveCorrespondent st T).2.1 = some uid
          ∧ dictGet T (resolveCorrespondent st T).1.topic_to_user = some uid
          ∧ (resolveCorrespondent st T).2.2
              = [Effect.save (save_maps (resolveCorrespondent st T).1)])
      ∧ (repair_scan T st.user_topics = none →
          resolveCorrespondent st T = (st, none, [])) := by
  have hres : ∀ uid, repair_scan T st.user_topics = some uid →
      resolveCorrespondent st T
        = ({ st with topic_to_user := dictInsert T uid st.topic_to_user }, some uid,
           [Effect.save (save_maps
             { st with topic_to_user := dictInsert T uid st.topic_to_user })]) := by
    intro uid hscan
    unfold resolveCorrespondent
    rw [hmiss, hscan]
    rfl
  constructor
  · intro hex
    obtain ⟨uid, rec, h1, h2, h3⟩ := repair_scan_finds T st.user_topics hex
    refine ⟨uid, rec, h1, h2, h3, ?_, ?_, ?_⟩
    · rw [hres uid h1]
    · rw [hres uid h1]
      exact dictGet_insert_self _ _ _
    · rw [hres uid h1]
  · intro hnone
    unfold resolveCorrespondent
    rw [hmiss, hnone]
    rfl

/-- Witness for C4 at a store holding one record assigned to thread 5 and an
empty reverse index. -/
theorem c4_self_healing_reverse_lookup_witness :
    (dictGet 5 (Store.mk [(7, TopicRecord.mk (some 5) "a")] []).topic_to_user = none)
      ∧ (((∃ p ∈ (Store.mk [(7, TopicRecord.mk (some 5) "a")] []).user_topics,
            p.2.topic_id = some 5) →
          ∃ uid rec,
            repair_scan 5 (Store.mk [(7, TopicRecord.mk (some 5) "a")] []).user_topics = some uid
            ∧ (uid, rec) ∈ (Store.mk [(7, TopicRecord.mk (some 5) "a")] []).user_topics
            ∧ rec.topic_id = some 5
            ∧ (resolveCorrespondent (Store.mk [(7, TopicRecord.mk (some 5) "a")] []) 5).2.1
                = some uid
            ∧ dictGet 5
                (resolveCorrespondent
                  (Store.mk [(7, TopicRecord.mk (some 5) "a")] []) 5).1.topic_to_user
                = some uid
            ∧ (resolveCorrespondent (Store.mk [(7, TopicRecord.mk (some 5) "a")] []) 5).2.2
                = [Effect.save (save_maps
                    (resolveCorrespondent (Store.mk [(7, TopicRecord.mk (some 5) "a")] []) 5).1)])
        ∧ (repair_scan 5 (Store.mk [(7, TopicRecord.mk (some 5) "a")] []).user_topics = none →
            resolveCorrespondent (Store.mk [(7, TopicRecord.mk (some 5) "a")] []) 5
              = (Store.mk [(7, TopicRecord.mk (some 5) "a")] [], none, []))) :=
  ⟨by decide,
    c4_self_healing_reverse_lookup (Store.mk [(7, TopicRecord.mk (some 5) "a")] []) 5 (by decide)⟩

/-! ### Degraded mode -/

/-- C5: once a correspondent's record holds the absent thread assignment,
every subsequent `get_or_create_topic` call refreshes the label, persists,
and returns the absent assignment without ever calling the transport's
create-thread operation again, and a subsequent plain text message from
that correspondent is forwarded to the workspace root (no thread id on the
send). -/
theorem c5_degraded_mode_idempotent (gcid : Int) (st : Store) (user_id : Int)
    (username username2 : String) (createResult createResult2 : Option Int)
    (rec : TopicRecord) (ag : AggState) (m : Msg)
    (hrec : dictGet user_id st.user_topics = some rec)
    (habsent : rec.topic_id = none)
    (hm_from : m.from_user_id = user_id)
    (hm_group : pyTruthyStrOpt m.media_group_id = false)
    (hm_text : (m.text != "") = true) :
    dictGet user_id (get_or_create_topic gcid st user_id username createResult).1.user_topics = some (TopicRecord.mk none username)
      ∧ (get_or_create_topic gcid st user_id username createResult).2.1 = none
      ∧ (get_or_create_topic gcid st user_id username createResult).2.2 = [Effect.save (save_maps (get_or_create_topic gcid st user_id username createResult).1)]
      ∧ (get_or_create_topic gcid (get_or_create_topic gcid st user_id username createResult).1 user_id username2 createResult2).2.1 = none
      ∧ (get_or_create_topic gcid (get_or_create_topic gcid st user_id username createResult).1 user_id username2 createResult2).2.2 = [Effect.save (save_maps (get_or_create_topic gcid (get_or_create_topic gcid st user_id username createResult).1 user_id username2 createResult2).1)]
      ∧ handle_private gcid (get_or_create_topic gcid st user_id username createResult).1 ag m username2 createResult2
          = ((get_or_create_topic gcid (get_or_create_topic gcid st user_id username createResult).1 user_id username2 createResult2).1, ag,
             (get_or_create_topic gcid (get_or_create_topic gcid st user_id username createResult).1 user_id username2 createResult2).2.2
               ++ [Effect.sendMessage gcid none ("收到 " ++ username2 ++ " 的信息：\n" ++ m.text)]) := by
  obtain ⟨t, u⟩ := rec
  have ht : t = none := habsent
  subst ht
  have h1 : get_or_create_topic gcid st user_id username createResult
      = (Store.mk (dictInsert user_id (TopicRecord.mk none username) st.user_topics)
          st.topic_to_user,
         none,
         [Effect.save (save_maps
           (Store.mk (dictInsert user_id (TopicRecord.mk none username) st.user_topics)
             st.topic_to_user))]) := by
    unfold get_or_create_topic
    rw [hrec]
  have hrec2 : dictGet user_id
      (Store.mk (dictInsert user_id (TopicRecord.mk none username) st.user_topics)
        st.topic_to_user).user_topics
      = some (TopicRecord.mk none username) := dictGet_insert_self _ _ _
  have h2 : get_or_create_topic gcid
        (Store.mk (dictInsert user_id (TopicRecord.mk none username) st.user_topics)
          st.topic_to_user) user_id username2 createResult2
      = (Store.mk
          (dictInsert user_id (TopicRecord.mk none username2)
            (dictInsert user_id (TopicRecord.mk none username) st.user_topics))
          st.topic_to_user,
         none,
         [Effect.save (save_maps
           (Store.mk
             (dictInsert user_id (TopicRecord.mk none username2)
               (dictInsert user_id (TopicRecord.mk none username) st.user_topics))
             st.topic_to_user))]) := by
    unfold get_or_create_topic
    rw [hrec2]
  have h3 : handle_private gcid
        (Store.mk (dictInsert user_id (TopicRecord.mk none username) st.user_topics)
          st.topic_to_user) ag m username2 createResult2
      = (Store.mk
          (dictInsert user_id (TopicRecord.mk none username2)
            (dictInsert user_id (TopicRecord.mk none username) st.user_topics))
          st.topic_to_user,
         ag,
         [Effect.save (save_maps
           (Store.mk
             (dictInsert user_id (TopicRecord.mk none username2)
               (dictInsert user_id (TopicRecord.mk none username) st.user_topics))
             st.topic_to_user))]
           ++ [Effect.sendMessage gcid none ("收到 " ++ username2 ++ " 的信息：\n" ++ m.text)]) := by
    unfold handle_private
    rw [hm_from, h2]
    simp only [hm_group, Bool.false_eq_true, if_false, hm_text, if_true]
  refine ⟨?_, ?_, ?_, ?_, ?_, ?_⟩
  · rw [h1]
    exact hrec2
  · rw [h1]
  · rw [h1]
  · simp only [h1, h2]
  · simp only [h1, h2]
  · simp only [h1, h2]
    exact h3

/-- Witness for C5 at a store already holding the degraded (absent)
assignment for user 7. -/
theorem c5_degraded_mode_idempotent_witness :
    (dictGet 7 (Store.mk [(7, TopicRecord.mk none "old")] []).user_topics = some (TopicRecord.mk none "old")
        ∧ (TopicRecord.mk none "old").topic_id = none
        ∧ (Msg.mk 1 7 "hi" "" [] none none none none none none).from_user_id = 7
        ∧ pyTruthyStrOpt (Msg.mk 1 7 "hi" "" [] none none none none none none).media_group_id = false
        ∧ ((Msg.mk 1 7 "hi" "" [] none none none none none none).text != "") = true)
      ∧ (dictGet 7 (get_or_create_topic (-100) (Store.mk [(7, TopicRecord.mk none "old")] []) 7 "u1" (some 99)).1.user_topics = some (TopicRecord.mk none "u1")
          ∧ (get_or_create_topic (-100) (Store.mk [(7, TopicRecord.mk none "old")] []) 7 "u1" (some 99)).2.1 = none
          ∧ (get_or_create_topic (-100) (Store.mk [(7, TopicRecord.mk none "old")] []) 7 "u1" (some 99)).2.2 = [Effect.save (save_maps (get_or_create_topic (-100) (Store.mk [(7, TopicRecord.mk none "old")] []) 7 "u1" (some 99)).1)]
          ∧ (get_or_create_topic (-100) (get_or_create_topic (-100) (Store.mk [(7, TopicRecord.mk none "old")] []) 7 "u1" (some 99)).1 7 "u2" (some 55)).2.1 = none
          ∧ (get_or_create_topic (-100) (get_or_create_topic (-100) (Store.mk [(7, TopicRecord.mk none "old")] []) 7 "u1" (some 99)).1 7 "u2" (some 55)).2.2 = [Effect.save (save_maps (get_or_create_topic (-100) (get_or_create_topic (-100) (Store.mk [(7, TopicRecord.mk none "old")] []) 7 "u1" (some 99)).1 7 "u2" (some 55)).1)]
          ∧ handle_private (-100) (get_or_create_topic (-100) (Store.mk [(7, TopicRecord.mk none "old")] []) 7 "u1" (some 99)).1 (AggState.mk [] []) (Msg.mk 1 7 "hi" "" [] none none none none none none) "u2" (some 55)
              = ((get_or_create_topic (-100) (get_or_create_topic (-100) (Store.mk [(7, TopicRecord.mk none "old")] []) 7 "u1" (some 99)).1 7 "u2" (some 55)).1, AggState.mk [] [],
                 (get_or_create_topic (-100) (get_or_create_topic (-100) (Store.mk [(7, TopicRecord.mk none "old")] []) 7 "u1" (some 99)).1 7 "u2" (some 55)).2.2
                   ++ [Effect.sendMessage (-100) none ("收到 " ++ "u2" ++ " 的信息：\n" ++ (Msg.mk 1 7 "hi" "" [] none none none none none none).text)])) :=
  ⟨⟨by decide, by decide, by decide, by decide, by decide⟩,
    c5_degraded_mode_idempotent (-100) (Store.mk [(7, TopicRecord.mk none "old")] []) 7 "u1" "u2" (some 99) (some 55)
      (TopicRecord.mk none "old") (AggState.mk [] []) (Msg.mk 1 7 "hi" "" [] none none none none none none)
      (by decide) (by decide) (by decide) (by decide) (by decide)⟩

/-! ### The workspace-side guard and the unroutable drop -/

/-- C8: an inbound workspace-side event is discarded — no send, no
mapping-store mutation, no enqueue, no effect at all — unless it occurred
inside a thread AND is a direct reply to a message whose sender is the
bot's own identity; the precondition is therefore necessary for any
forwarding back to a correspondent. -/
theorem c8_group_reply_guard (gcid bid : Int) (st : Store) (ag : AggState) (msg : Msg)
    (h : ¬(pyTruthyIntOpt msg.message_thread_id = true
          ∧ (match msg.reply_to_from_user with
             | some (some i) => i == bid
             | _ => false) = true)) :
    handle_group gcid bid st ag msg = (st, ag, []) := by
  unfold handle_group
  by_cases hc : (msg.chat_id != gcid) = true
  · rw [if_pos hc]
  · rw [if_neg hc]
    have hb : (pyTruthyIntOpt msg.message_thread_id
        && (match msg.reply_to_from_user with
            | some (some i) => i == bid
            | _ => false)) = false := by
      cases h1 : pyTruthyIntOpt msg.message_thread_id with
      | false => simp
      | true =>
          cases h2 : (match msg.reply_to_from_user with
              | some (some i) => i == bid
              | _ => false : Bool) with
          | false => simp
          | true => exact absurd ⟨h1, h2⟩ h
    rw [hb]
    rfl

/-- Witness for C8: an event inside a thread that replies to a non-bot
sender is discarded with no effects. -/
theorem c8_group_reply_guard_witness :
    (¬(pyTruthyIntOpt (Msg.mk (-100) 7 "hi" "" [] none none none none (some 3)
            (some (some 8))).message_thread_id = true
        ∧ (match (Msg.mk (-100) 7 "hi" "" [] none none none none (some 3)
              (some (some 8))).reply_to_from_user with
           | some (some i) => i == (42 : Int)
           | _ => false) = true))
      ∧ handle_group (-100) 42 (Store.mk [] []) (AggState.mk [] [])
          (Msg.mk (-100) 7 "hi" "" [] none none none none (some 3) (some (some 8)))
          = (Store.mk [] [], AggState.mk [] [], []) :=
  ⟨by decide,
    c8_group_reply_guard (-100) 42 (Store.mk [] []) (AggState.mk [] [])
      (Msg.mk (-100) 7 "hi" "" [] none none none none (some 3) (some (some 8)))
      (by decide)⟩

/-- C9: a workspace-thread reply whose thread has no resolvable
correspondent even after the repair scan produces zero outbound sends and
exactly one log entry; no message is sent back to the workspace sender, and
the store is unchanged. -/
theorem c9_unroutable_drop (gcid bid : Int) (st : Store) (ag : AggState) (msg : Msg)
    (hc : msg.chat_id = gcid)
    (hp : pyTruthyIntOpt msg.message_thread_id = true)
    (hr : (match msg.reply_to_from_user with
           | some (some i) => i == bid
           | _ => false) = true)
    (hu : pyTruthyIntOpt (dictGet (msg.message_thread_id.getD 0) st.topic_to_user) = false)
    (hs : repair_scan (msg.message_thread_id.getD 0) st.user_topics = none) :
    handle_group gcid bid st ag msg
      = (st, ag, [Effect.logWarning "未找到 topic_id %s 对应用户"]) := by
  have hres : resolveCorrespondent st (msg.message_thread_id.getD 0)
      = (st, dictGet (msg.message_thread_id.getD 0) st.topic_to_user, []) := by
    unfold resolveCorrespondent
    rw [hs]
    simp [hu]
  unfold handle_group
  have hc' : (msg.chat_id != gcid) = false := by simp [hc]
  rw [hc']
  have hb : (pyTruthyIntOpt msg.message_thread_id
      && (match msg.reply_to_from_user with
          | some (some i) => i == bid
          | _ => false)) = true := by
    rw [hp, hr]
    rfl
  rw [hb]
  simp only [Bool.not_true, Bool.false_eq_true, if_false, hres, hu]
  rfl

/-- Witness for C9: a reply in thread 3 of a store that knows only thread 4,
so even the repair scan fails. -/
theorem c9_unroutable_drop_witness :
    ((Msg.mk (-100) 7 "hi" "" [] none none none none (some 3) (some (some 42))).chat_id = -100
        ∧ pyTruthyIntOpt (Msg.mk (-100) 7 "hi" "" [] none none none none (some 3) (some (some 42))).message_thread_id = true
        ∧ (match (Msg.mk (-100) 7 "hi" "" [] none none none none (some 3) (some (some 42))).reply_to_from_user with
           | some (some i) => i == (42 : Int)
           | _ => false) = true
        ∧ pyTruthyIntOpt (dictGet ((Msg.mk (-100) 7 "hi" "" [] none none none none (some 3) (some (some 42))).message_thread_id.getD 0) (Store.mk [(9, TopicRecord.mk (some 4) "a")] []).topic_to_user) = false
        ∧ repair_scan ((Msg.mk (-100) 7 "hi" "" [] none none none none (some 3) (some (some 42))).message_thread_id.getD 0) (Store.mk [(9, TopicRecord.mk (some 4) "a")] []).user_topics = none)
      ∧ handle_group (-100) 42 (Store.mk [(9, TopicRecord.mk (some 4) "a")] []) (AggState.mk [] []) (Msg.mk (-100) 7 "hi" "" [] none none none none (some 3) (some (some 42)))
          = ((Store.mk [(9, TopicRecord.mk (some 4) "a")] []), AggState.mk [] [], [Effect.logWarning "未找到 topic_id %s 对应用户"]) :=
  ⟨⟨by decide, by decide, by decide, by decide, by decide⟩,
    c9_unroutable_drop (-100) 42 (Store.mk [(9, TopicRecord.mk (some 4) "a")] []) (AggState.mk [] []) (Msg.mk (-100) 7 "hi" "" [] none none none none (some 3) (some (some 42)))
      (by decide) (by decide) (by decide) (by decide) (by decide)⟩

/-! ### Frame effect of ignored content kinds -/

theorem get_or_create_topic_spec (gcid : Int) (st : Store) (uid : Int)
    (username : String) (cr : Option Int) :
    (∀ e ∈ (get_or_create_topic gcid st uid username cr).2.2, isSend e = false)
      ∧ Effect.save (save_maps (get_or_create_topic gcid st uid username cr).1)
          ∈ (get_or_create_topic gcid st uid username cr).2.2
      ∧ ∃ r : TopicRecord,
          dictGet uid (get_or_create_topic gcid st uid username cr).1.user_topics = some r
            ∧ r.username = username := by
  unfold get_or_create_topic
  cases hg : dictGet uid st.user_topics with
  | some rec =>
      refine ⟨?_, ?_, TopicRecord.mk rec.topic_id username, ?_, rfl⟩
      · intro e he
        rcases List.mem_singleton.mp he with rfl
        rfl
      · simp
      · exact dictGet_insert_self _ _ _
  | none =>
      cases cr with
      | some tid =>
          refine ⟨?_, ?_, TopicRecord.mk (some tid) username, ?_, rfl⟩
          · intro e he
            rcases List.mem_cons.mp he with rfl | he
            · rfl
            · rcases List.mem_singleton.mp he with rfl
              rfl
          · simp
          · exact dictGet_insert_self _ _ _
      | none =>
          refine ⟨?_, ?_, TopicRecord.mk none username, ?_, rfl⟩
          · intro e he
            rcases List.mem_cons.mp he with rfl | he
            · rfl
            · rcases List.mem_cons.mp he with rfl | he
              · rfl
              · rcases List.mem_singleton.mp he with rfl
                rfl
          · simp
          · exact dictGet_insert_self _ _ _

/-- C10: a private message that carries no burst id and none of the five
recognized content kinds produces no send, yet `handle_private` still runs
`get_or_create_topic` first: the correspondent record is created or its
label refreshed (with possible thread creation), and the store is persisted
— the mapping store mutates even on silently ignored content kinds. -/
theorem c10_store_mutates_on_ignored_kinds (gcid : Int) (st : Store) (ag : AggState)
    (m : Msg) (username : String) (createResult : Option Int)
    (h0 : pyTruthyStrOpt m.media_group_id = false)
    (h1 : m.text = "") (h2 : m.photo = []) (h3 : m.video = none)
    (h4 : m.document = none) (h5 : m.voice = none) :
    handle_private gcid st ag m username createResult = ((get_or_create_topic gcid st m.from_user_id username createResult).1, ag, (get_or_create_topic gcid st m.from_user_id username createResult).2.2)
      ∧ (∀ e ∈ (get_or_create_topic gcid st m.from_user_id username createResult).2.2, isSend e = false)
      ∧ Effect.save (save_maps (get_or_create_topic gcid st m.from_user_id username createResult).1) ∈ (get_or_create_topic gcid st m.from_user_id username createResult).2.2
      ∧ ∃ r : TopicRecord,
          dictGet m.from_user_id (get_or_create_topic gcid st m.from_user_id username createResult).1.user_topics = some r ∧ r.username = username := by
  have hmain : handle_private gcid st ag m username createResult = ((get_or_create_topic gcid st m.from_user_id username createResult).1, ag, (get_or_create_topic gcid st m.from_user_id username createResult).2.2) := by
    unfold handle_private
    simp only [h0, Bool.false_eq_true, if_false, h1, h2, h3, h4, h5]
    rfl
  exact ⟨hmain,
    (get_or_create_topic_spec gcid st m.from_user_id username createResult).1,
    (get_or_create_topic_spec gcid st m.from_user_id username createResult).2.1,
    (get_or_create_topic_spec gcid st m.from_user_id username createResult).2.2⟩

/-- Witness for C10: an unrecognized content kind (no text, media, voice or
burst id) from a previously unseen user still creates the record, creates a
thread and persists, with no send. -/
theorem c10_store_mutates_on_ignored_kinds_witness :
    (pyTruthyStrOpt (Msg.mk 1 7 "" "" [] none none none none none none).media_group_id = false
        ∧ (Msg.mk 1 7 "" "" [] none none none none none none).text = "" ∧ (Msg.mk 1 7 "" "" [] none none none none none none).photo = [] ∧ (Msg.mk 1 7 "" "" [] none none none none none none).video = none
        ∧ (Msg.mk 1 7 "" "" [] none none none none none none).document = none ∧ (Msg.mk 1 7 "" "" [] none none none none none none).voice = none)
      ∧ (handle_private (-100) (Store.mk [] []) (AggState.mk [] []) (Msg.mk 1 7 "" "" [] none none none none none none) "u" (some 42)
            = ((get_or_create_topic (-100) (Store.mk [] []) (Msg.mk 1 7 "" "" [] none none none none none none).from_user_id "u" (some 42)).1, AggState.mk [] [], (get_or_create_topic (-100) (Store.mk [] []) (Msg.mk 1 7 "" "" [] none none none none none none).from_user_id "u" (some 42)).2.2)
          ∧ (∀ e ∈ (get_or_create_topic (-100) (Store.mk [] []) (Msg.mk 1 7 "" "" [] none none none none none none).from_user_id "u" (some 42)).2.2, isSend e = false)
          ∧ Effect.save (save_maps (get_or_create_topic (-100) (Store.mk [] []) (Msg.mk 1 7 "" "" [] none none none none none none).from_user_id "u" (some 42)).1) ∈ (get_or_create_topic (-100) (Store.mk [] []) (Msg.mk 1 7 "" "" [] none none none none none none).from_user_id "u" (some 42)).2.2
          ∧ ∃ r : TopicRecord,
              dictGet (Msg.mk 1 7 "" "" [] none none none none none none).from_user_id (get_or_create_topic (-100) (Store.mk [] []) (Msg.mk 1 7 "" "" [] none none none none none none).from_user_id "u" (some 42)).1.user_topics = some r ∧ r.username = "u") :=
  ⟨⟨by decide, by decide, by decide, by decide, by decide, by decide⟩,
    c10_store_mutates_on_ignored_kinds (-100) (Store.mk [] []) (AggState.mk [] []) (Msg.mk 1 7 "" "" [] none none none none none none) "u" (some 42)
      (by decide) (by decide) (by decide) (by decide) (by decide) (by decide)⟩

/-- Witness for C3 at a concrete buffer of 23 photo messages. -/
theorem c3_chunked_batch_sends_witness :
    (dictGet "UG:a" (AggState.mk [("UG:a", (List.replicate 23 (Msg.mk 1 7 "" "" ["p"] none none none (some "a") none none)))] []).media_groups = some (List.replicate 23 (Msg.mk 1 7 "" "" ["p"] none none none (some "a") none none)) ∧ (List.replicate 23 (Msg.mk 1 7 "" "" ["p"] none none none (some "a") none none)) ≠ [])
      ∧ ((process_media_group_UG (-100) (AggState.mk [("UG:a", (List.replicate 23 (Msg.mk 1 7 "" "" ["p"] none none none (some "a") none none)))] []) "UG:a" (some 5)).2
            = (_chunk (build_media_all (List.replicate 23 (Msg.mk 1 7 "" "" ["p"] none none none (some "a") none none))) 10).map (Effect.sendMediaGroup (-100) (some 5))
          ∧ (∀ c ∈ _chunk (build_media_all (List.replicate 23 (Msg.mk 1 7 "" "" ["p"] none none none (some "a") none none))) 10, c.length ≤ 10)
          ∧ (_chunk (build_media_all (List.replicate 23 (Msg.mk 1 7 "" "" ["p"] none none none (some "a") none none))) 10).flatten = build_media_all (List.replicate 23 (Msg.mk 1 7 "" "" ["p"] none none none (some "a") none none))
          ∧ ((build_media_all (List.replicate 23 (Msg.mk 1 7 "" "" ["p"] none none none (some "a") none none))).length = 23 →
              (_chunk (build_media_all (List.replicate 23 (Msg.mk 1 7 "" "" ["p"] none none none (some "a") none none))) 10).map List.length = [10, 10, 3])) :=
  ⟨⟨by decide, by decide⟩,
    c3_chunked_batch_sends (-100) (AggState.mk [("UG:a", (List.replicate 23 (Msg.mk 1 7 "" "" ["p"] none none none (some "a") none none)))] []) "UG:a" (some 5) (List.replicate 23 (Msg.mk 1 7 "" "" ["p"] none none none (some "a") none none)) (by decide) (by decide)⟩
